import Mathlib

/-!
Shallow embedding of the `portforward` Go package (pytogo/pytogo):
the session registry (`registerForwarding`, `StopForwarding`), the
orchestrator (`Forward`), target resolution (`prepareForward`), dialer URL
construction (`newDialer`), the post-launch monitor and forward-loop tasks
(`startForward`'s goroutines), the signal listener (`closeOnSigterm`) and
the logger (`overwriteLog`).

Collaborator calls (kubeconfig loading, the Kubernetes API lookups, SPDY
round-tripper construction, `portforward.New`) are modelled as explicit
`Except`-valued inputs; the Go map `activeForwards` is modelled as an
association list with at most one entry per key, together with a log of
channel-close events so that "signaled exactly once" is expressible.
-/

namespace Portforward

/-- State of the registry: the Go package-level `activeForwards` map
(`map[string]chan struct{}`) plus a log of `close(ch)` events. Stop
channels are identified by `Nat` ids; `closes` records each id every time
the code executes `close` on it. -/
structure RegState where
  active : List (String × Nat)
  closes : List Nat
deriving DecidableEq, Repr

/-- `fmt.Sprintf("%s/%s", namespace, podOrService)` — the composite map key. -/
def mkKey (ns podOrService : String) : String := ns ++ "/" ++ podOrService

/-- Go map read `activeForwards[key]` (with the `ok` flag as `Option`). -/
def getAssoc (k : String) : List (String × Nat) → Option Nat
  | [] => none
  | p :: rest => if p.1 = k then some p.2 else getAssoc k rest

/-- Go map write `activeForwards[key] = stopCh`: the map has at most one
entry per key, so the write replaces any entry with that key. -/
def setAssoc (k : String) (v : Nat) (l : List (String × Nat)) : List (String × Nat) :=
  (k, v) :: l.filter (fun p => p.1 != k)

/-- Go map `delete(activeForwards, key)`. -/
def delAssoc (k : String) (l : List (String × Nat)) : List (String × Nat) :=
  l.filter (fun p => p.1 != k)

/-- `registerForwarding` (portforward.go:48-59): under the mutex, if the key
(`mkKey ns podOrService`) already has a channel, `close` it; then store the
new channel. -/
def registerForwarding (ns podOrService : String) (stopCh : Nat) (st : RegState) : RegState :=
  match getAssoc (mkKey ns podOrService) st.active with
  | some otherCh =>
    { active := setAssoc (mkKey ns podOrService) stopCh st.active
      closes := st.closes ++ [otherCh] }
  | none =>
    { active := setAssoc (mkKey ns podOrService) stopCh st.active
      closes := st.closes }

/-- `StopForwarding` (portforward.go:62-72): under the mutex, if the key has
a channel, `close` it and delete the entry; otherwise do nothing. -/
def StopForwarding (ns podOrService : String) (st : RegState) : RegState :=
  match getAssoc (mkKey ns podOrService) st.active with
  | some otherCh =>
    { active := delAssoc (mkKey ns podOrService) st.active
      closes := st.closes ++ [otherCh] }
  | none => st

/-- A sequence of `registerForwarding` calls for the same key. -/
def registerSeq (ns podOrService : String) (hs : List Nat) (st : RegState) : RegState :=
  hs.foldl (fun s g => registerForwarding ns podOrService g s) st

/- ### Association-list lemmas -/

theorem getAssoc_setAssoc_same (k : String) (v : Nat) (l : List (String × Nat)) :
    getAssoc k (setAssoc k v l) = some v := by
  simp [getAssoc, setAssoc]

theorem getAssoc_filter_ne (k k' : String) (hne : k' ≠ k) (l : List (String × Nat)) :
    getAssoc k' (l.filter (fun p => p.1 != k)) = getAssoc k' l := by
  induction l with
  | nil => rfl
  | cons p rest ih =>
    rw [List.filter_cons]
    by_cases hp : p.1 = k
    · have hf : (p.1 != k) = false := by simp [hp]
      have hne' : ¬ p.1 = k' := by
        rw [hp]; exact fun h => hne h.symm
      simp only [hf, Bool.false_eq_true, if_false, ih, getAssoc]
      rw [if_neg hne']
    · have hf : (p.1 != k) = true := by simp [hp]
      simp only [hf, if_true, getAssoc]
      by_cases hp' : p.1 = k'
      · rw [if_pos hp', if_pos hp']
      · rw [if_neg hp', if_neg hp', ih]

theorem getAssoc_setAssoc_ne (k k' : String) (v : Nat) (hne : k' ≠ k)
    (l : List (String × Nat)) :
    getAssoc k' (setAssoc k v l) = getAssoc k' l := by
  simp only [setAssoc, getAssoc]
  rw [if_neg (by simpa using fun h => hne h.symm)]
  exact getAssoc_filter_ne k k' hne l

theorem getAssoc_delAssoc_same (k : String) (l : List (String × Nat)) :
    getAssoc k (delAssoc k l) = none := by
  induction l with
  | nil => rfl
  | cons p rest ih =>
    by_cases hp : p.1 = k
    · have : (p.1 != k) = false := by simp [hp]
      simpa [delAssoc, List.filter, this] using ih
    · have : (p.1 != k) = true := by simp [hp]
      simpa [delAssoc, List.filter, this, getAssoc, hp] using ih

theorem getAssoc_delAssoc_ne (k k' : String) (hne : k' ≠ k) (l : List (String × Nat)) :
    getAssoc k' (delAssoc k l) = getAssoc k' l :=
  getAssoc_filter_ne k k' hne l

theorem countP_setAssoc_same (k : String) (v : Nat) (l : List (String × Nat)) :
    (setAssoc k v l).countP (fun p => p.1 == k) = 1 := by
  simp only [setAssoc]
  rw [List.countP_cons_of_pos _ _ (by simp)]
  have : (l.filter (fun p => p.1 != k)).countP (fun p => p.1 == k) = 0 := by
    rw [List.countP_eq_zero]
    intro p hp
    have := List.of_mem_filter hp
    simp only [bne_iff_ne, ne_eq] at this
    simpa using this
  omega

/- ### Registry lemmas -/

theorem registerForwarding_active (ns n : String) (h : Nat) (st : RegState) :
    (registerForwarding ns n h st).active = setAssoc (mkKey ns n) h st.active := by
  unfold registerForwarding
  cases hc : getAssoc (mkKey ns n) st.active <;> simp

theorem registerForwarding_closes (ns n : String) (h : Nat) (st : RegState) :
    (registerForwarding ns n h st).closes =
      st.closes ++ (getAssoc (mkKey ns n) st.active).toList := by
  unfold registerForwarding
  cases hc : getAssoc (mkKey ns n) st.active <;> simp

theorem StopForwarding_noop (ns n : String) (st : RegState)
    (habs : getAssoc (mkKey ns n) st.active = none) :
    StopForwarding ns n st = st := by
  unfold StopForwarding
  rw [habs]

theorem registerSeq_present (ns n : String) (hs : List Nat) (h g : Nat) (st : RegState)
    (hcur : getAssoc (mkKey ns n) st.active = some g) :
    (registerSeq ns n (hs ++ [h]) st).closes = st.closes ++ g :: hs ∧
    getAssoc (mkKey ns n) (registerSeq ns n (hs ++ [h]) st).active = some h := by
  induction hs generalizing st g with
  | nil =>
    simp only [List.nil_append, registerSeq, List.foldl_cons, List.foldl_nil]
    constructor
    · rw [registerForwarding_closes, hcur]; rfl
    · rw [registerForwarding_active]; exact getAssoc_setAssoc_same ..
  | cons a hs ih =>
    simp only [List.cons_append, registerSeq, List.foldl_cons]
    have hcur' : getAssoc (mkKey ns n) (registerForwarding ns n a st).active = some a := by
      rw [registerForwarding_active]; exact getAssoc_setAssoc_same ..
    have hclo : (registerForwarding ns n a st).closes = st.closes ++ [g] := by
      rw [registerForwarding_closes, hcur]; rfl
    obtain ⟨c1, c2⟩ := ih a (registerForwarding ns n a st) hcur'
    simp only [registerSeq] at c1 c2
    refine ⟨?_, c2⟩
    rw [c1, hclo]
    simp

theorem registerSeq_absent (ns n : String) (hs : List Nat) (h : Nat) (st : RegState)
    (hcur : getAssoc (mkKey ns n) st.active = none) :
    (registerSeq ns n (hs ++ [h]) st).closes = st.closes ++ hs ∧
    getAssoc (mkKey ns n) (registerSeq ns n (hs ++ [h]) st).active = some h := by
  cases hs with
  | nil =>
    simp only [List.nil_append, registerSeq, List.foldl_cons, List.foldl_nil]
    constructor
    · rw [registerForwarding_closes, hcur]; simp
    · rw [registerForwarding_active]; exact getAssoc_setAssoc_same ..
  | cons a hs =>
    simp only [List.cons_append, registerSeq, List.foldl_cons]
    have hcur' : getAssoc (mkKey ns n) (registerForwarding ns n a st).active = some a := by
      rw [registerForwarding_active]; exact getAssoc_setAssoc_same ..
    have hclo : (registerForwarding ns n a st).closes = st.closes := by
      rw [registerForwarding_closes, hcur]; simp
    obtain ⟨c1, c2⟩ := registerSeq_present ns n hs h a (registerForwarding ns n a st) hcur'
    simp only [registerSeq] at c1 c2
    exact ⟨by rw [c1, hclo], c2⟩

theorem registerSeq_last_countP (ns n : String) (hs : List Nat) (h : Nat) (st : RegState) :
    (registerSeq ns n (hs ++ [h]) st).active.countP (fun p => p.1 == mkKey ns n) = 1 := by
  have hsplit : registerSeq ns n (hs ++ [h]) st
      = registerForwarding ns n h (registerSeq ns n hs st) := by
    simp [registerSeq, List.foldl_append]
  rw [hsplit, registerForwarding_active]
  exact countP_setAssoc_same ..

/- ### Claim C1 -/

/-- C1: after N sequential `registerForwarding` calls for the same key with
pairwise-distinct fresh stop channels, exactly one entry is present under
the key — the last channel registered — and every previously registered
channel has been closed (signaled) exactly once, while the last one has
never been closed. -/
theorem C1_at_most_one_per_key (ns podOrService : String) (hs : List Nat) (h : Nat)
    (st0 : RegState)
    (habs : getAssoc (mkKey ns podOrService) st0.active = none)
    (hcl : st0.closes = [])
    (hnd : hs.Nodup) (hnh : h ∉ hs) :
    getAssoc (mkKey ns podOrService) (registerSeq ns podOrService (hs ++ [h]) st0).active
      = some h ∧
    (registerSeq ns podOrService (hs ++ [h]) st0).active.countP
      (fun p => p.1 == mkKey ns podOrService) = 1 ∧
    (∀ g ∈ hs, (registerSeq ns podOrService (hs ++ [h]) st0).closes.count g = 1) ∧
    (registerSeq ns podOrService (hs ++ [h]) st0).closes.count h = 0 := by
  obtain ⟨c1, c2⟩ := registerSeq_absent ns podOrService hs h st0 habs
  refine ⟨c2, registerSeq_last_countP .., ?_, ?_⟩
  · intro g hg
    rw [c1, hcl, List.nil_append]
    exact List.count_eq_one_of_mem hnd hg
  · rw [c1, hcl, List.nil_append]
    exact List.count_eq_zero.mpr hnh

theorem C1_at_most_one_per_key_witness :
    getAssoc (mkKey "test" "web")
      (registerSeq "test" "web" ([1, 2] ++ [3]) (⟨[], []⟩ : RegState)).active = some 3 ∧
    (registerSeq "test" "web" ([1, 2] ++ [3]) (⟨[], []⟩ : RegState)).active.countP
      (fun p => p.1 == mkKey "test" "web") = 1 ∧
    (registerSeq "test" "web" ([1, 2] ++ [3]) (⟨[], []⟩ : RegState)).closes.count 1 = 1 ∧
    (registerSeq "test" "web" ([1, 2] ++ [3]) (⟨[], []⟩ : RegState)).closes.count 3 = 0 :=
  ⟨(C1_at_most_one_per_key "test" "web" [1, 2] 3 ⟨[], []⟩ rfl rfl (by decide) (by decide)).1,
   (C1_at_most_one_per_key "test" "web" [1, 2] 3 ⟨[], []⟩ rfl rfl (by decide) (by decide)).2.1,
   (C1_at_most_one_per_key "test" "web" [1, 2] 3 ⟨[], []⟩ rfl rfl (by decide)
     (by decide)).2.2.1 1 (by decide),
   (C1_at_most_one_per_key "test" "web" [1, 2] 3 ⟨[], []⟩ rfl rfl (by decide) (by decide)).2.2.2⟩

/- ### Claim C2 -/

/-- C2: `StopForwarding` on an absent key is a no-op; `StopForwarding` twice
in a row equals `StopForwarding` once (so the underlying channel is closed
at most once — the second call finds the entry deleted and never re-signals,
hence double teardown cannot fault); across a double stop, any channel's
close count grows by at most one. -/
theorem C2_stop_idempotent (ns podOrService : String) (st st2 : RegState) (g : Nat)
    (habs : getAssoc (mkKey ns podOrService) st.active = none) :
    StopForwarding ns podOrService st = st ∧
    StopForwarding ns podOrService (StopForwarding ns podOrService st2) =
      StopForwarding ns podOrService st2 ∧
    (StopForwarding ns podOrService (StopForwarding ns podOrService st2)).closes.count g ≤
      st2.closes.count g + 1 := by
  have hdouble : StopForwarding ns podOrService (StopForwarding ns podOrService st2) =
      StopForwarding ns podOrService st2 := by
    cases hc : getAssoc (mkKey ns podOrService) st2.active with
    | none => rw [StopForwarding_noop ns podOrService st2 hc, StopForwarding_noop ns podOrService st2 hc]
    | some g0 =>
      apply StopForwarding_noop
      unfold StopForwarding
      rw [hc]
      exact getAssoc_delAssoc_same ..
  refine ⟨StopForwarding_noop ns podOrService st habs, hdouble, ?_⟩
  rw [hdouble]
  cases hc : getAssoc (mkKey ns podOrService) st2.active with
  | none => rw [StopForwarding_noop ns podOrService st2 hc]; omega
  | some g0 =>
    unfold StopForwarding
    rw [hc]
    simp only [List.count_append]
    have : List.count g [g0] ≤ 1 := by
      cases hgg : (g0 == g) <;> simp [List.count_singleton, hgg]
    omega

theorem C2_stop_idempotent_witness :
    StopForwarding "test" "web" (⟨[], []⟩ : RegState) = (⟨[], []⟩ : RegState) ∧
    StopForwarding "test" "web" (StopForwarding "test" "web"
      (⟨[("test/web", 7)], []⟩ : RegState)) =
      StopForwarding "test" "web" (⟨[("test/web", 7)], []⟩ : RegState) ∧
    (StopForwarding "test" "web" (StopForwarding "test" "web"
      (⟨[("test/web", 7)], []⟩ : RegState))).closes.count 7 ≤
      (⟨[("test/web", 7)], []⟩ : RegState).closes.count 7 + 1 :=
  C2_stop_idempotent "test" "web" ⟨[], []⟩ ⟨[("test/web", 7)], []⟩ 7 rfl

/- ### Claim C8 -/

/-- C8 (counterexample): the pairs `("a", "b/c")` and `("a/b", "c")` differ
in both fields, yet registering under the second pair signals and replaces
the session registered under the first pair, because both collapse to the
composite map key `"a/b/c"`. -/
theorem C8_distinct_pairs_counterexample :
    (("a", "b/c") : String × String) ≠ ("a/b", "c") ∧
    getAssoc (mkKey "a" "b/c")
      (registerForwarding "a/b" "c" 2
        (registerForwarding "a" "b/c" 1 (⟨[], []⟩ : RegState))).active = some 2 ∧
    (registerForwarding "a/b" "c" 2
      (registerForwarding "a" "b/c" 1 (⟨[], []⟩ : RegState))).closes.count 1 = 1 := by
  exact ⟨by decide, by decide, by decide⟩

/-- C8 (amended): whenever the composite keys `ns1 ++ "/" ++ n1` and
`ns2 ++ "/" ++ n2` differ, `registerForwarding` and `StopForwarding` on the
second pair leave the first pair's entry untouched and close only the
channel currently stored under the second pair's key. (Pairs that differ in
a field can still collide when the composite keys coincide.) -/
theorem C8_distinct_keys_independent (ns1 n1 ns2 n2 : String) (h : Nat) (st : RegState)
    (hne : mkKey ns1 n1 ≠ mkKey ns2 n2) :
    getAssoc (mkKey ns1 n1) (registerForwarding ns2 n2 h st).active
      = getAssoc (mkKey ns1 n1) st.active ∧
    getAssoc (mkKey ns1 n1) (StopForwarding ns2 n2 st).active
      = getAssoc (mkKey ns1 n1) st.active ∧
    (registerForwarding ns2 n2 h st).closes
      = st.closes ++ (getAssoc (mkKey ns2 n2) st.active).toList ∧
    (StopForwarding ns2 n2 st).closes
      = st.closes ++ (getAssoc (mkKey ns2 n2) st.active).toList := by
  refine ⟨?_, ?_, registerForwarding_closes .., ?_⟩
  · rw [registerForwarding_active]
    exact getAssoc_setAssoc_ne _ _ _ hne st.active
  · cases hc : getAssoc (mkKey ns2 n2) st.active with
    | none => rw [StopForwarding_noop ns2 n2 st hc]
    | some g0 =>
      unfold StopForwarding
      rw [hc]
      exact getAssoc_delAssoc_ne _ _ hne st.active
  · cases hc : getAssoc (mkKey ns2 n2) st.active with
    | none => rw [StopForwarding_noop ns2 n2 st hc]; simp
    | some g0 =>
      unfold StopForwarding
      rw [hc]
      simp

theorem C8_distinct_keys_independent_witness :
    getAssoc (mkKey "a" "b")
      (registerForwarding "c" "d" 2 (⟨[("a/b", 1)], []⟩ : RegState)).active
      = getAssoc (mkKey "a" "b") (⟨[("a/b", 1)], []⟩ : RegState).active ∧
    getAssoc (mkKey "a" "b")
      (StopForwarding "c" "d" (⟨[("a/b", 1)], []⟩ : RegState)).active
      = getAssoc (mkKey "a" "b") (⟨[("a/b", 1)], []⟩ : RegState).active ∧
    (registerForwarding "c" "d" 2 (⟨[("a/b", 1)], []⟩ : RegState)).closes
      = (⟨[("a/b", 1)], []⟩ : RegState).closes
        ++ (getAssoc (mkKey "c" "d") (⟨[("a/b", 1)], []⟩ : RegState).active).toList ∧
    (StopForwarding "c" "d" (⟨[("a/b", 1)], []⟩ : RegState)).closes
      = (⟨[("a/b", 1)], []⟩ : RegState).closes
        ++ (getAssoc (mkKey "c" "d") (⟨[("a/b", 1)], []⟩ : RegState).active).toList :=
  C8_distinct_keys_independent "a" "b" "c" "d" 2 ⟨[("a/b", 1)], []⟩ (by decide)

/- ### Go string helpers -/

/-- Substring test on char lists (Go `strings.Contains` semantics). -/
def subListOf (pat : List Char) : List Char → Bool
  | [] => pat.isEmpty
  | c :: rest => pat.isPrefixOf (c :: rest) || subListOf pat rest

/-- Go `strings.Contains(s, sub)`. -/
def goStringsContains (s sub : String) : Bool := subListOf sub.data s.data

theorem subListOf_self (l : List Char) : subListOf l l = true := by
  cases l with
  | nil => rfl
  | cons c rest =>
    have hpre : List.isPrefixOf (c :: rest) (c :: rest) = true :=
      List.isPrefixOf_iff_prefix.mpr (List.prefix_refl _)
    simp [subListOf, hpre]

/- ### Target resolution -/

/-- `prepareForward` (portforward.go:150-180). The collaborator calls
(`kubernetes.NewForConfig`, the Services `Get`, the Pods `Get`) are inputs:
`Except.ok` for success, `Except.error msg` for a Go error whose `Error()`
message is `msg`. On success returns the resource-kind string. -/
def prepareForward (clientsetRes svcRes podRes : Except String Unit)
    (podOrService : String) : Except String String :=
  match clientsetRes with
  | .error e => .error e
  | .ok _ =>
    match svcRes with
    | .ok _ => .ok "services"
    | .error e =>
      if !(goStringsContains e "not found") then .error e
      else
        match podRes with
        | .ok _ => .ok "pods"
        | .error e2 =>
          if !(goStringsContains e2 "not found") then .error e2
          else .error ("no service or pod with name " ++ podOrService ++ " found")

/- ### Dialer URL construction -/

structure DialerURL where
  scheme : String
  host : String
  path : String
deriving DecidableEq, Repr

/-- The character set denoted by the Go cutset string `"https://"`:
`strings.TrimLeft` interprets its second argument as a set of code points,
not as a literal. -/
def httpsCutset : List Char := ['h', 't', 'p', 's', ':', '/']

/-- Go `strings.TrimLeft(s, cutset)` on char lists: drop leading chars that
are members of the cutset. -/
def goTrimLeft (cutset : List Char) : List Char → List Char
  | [] => []
  | c :: rest => if cutset.contains c then goTrimLeft cutset rest else c :: rest

/-- Go `strings.SplitN(s, "/", 2)`: `some (before, after)` when `s`
contains a `'/'` (the split has two parts), otherwise `none`. -/
def splitFirstSlash : List Char → Option (List Char × List Char)
  | [] => none
  | c :: rest =>
    if c = '/' then some ([], rest)
    else
      match splitFirstSlash rest with
      | none => none
      | some (a, b) => some (c :: a, b)

/-- `newDialer` (portforward.go:183-203). `spdy.RoundTripperFor` is an
input; `host` is `config.Host`. Returns the URL the SPDY dialer is built
on. -/
def newDialer (roundTripperRes : Except String Unit)
    (host ns resType podOrService : String) : Except String DialerURL :=
  match roundTripperRes with
  | .error e => .error e
  | .ok _ =>
    let path := "/api/v1/namespaces/" ++ ns ++ "/" ++ resType ++ "/" ++ podOrService
      ++ "/portforward"
    let hostIP : List Char := goTrimLeft httpsCutset host.data
    match splitFirstSlash hostIP with
    | some (a, b) => .ok ⟨"https", String.mk a, "/" ++ String.mk b ++ path⟩
    | none => .ok ⟨"https", String.mk hostIP, path⟩

/- ### startForward and its background tasks -/

/-- Outcome of one of `startForward`'s background goroutines
(portforward.go:214-230). `terminated` models `panic(...)`: abnormal
process termination. -/
inductive TaskOutcome
  | terminated (msg : String)
  | loggedDebug (msg : String)
  | quiet
deriving DecidableEq, Repr

/-- The ready/error monitor goroutine body, run once `readyChan` has been
closed by the remote side: `panic` on non-empty `errOut`, else `log.Debug`
on non-empty `out`, else nothing. -/
def monitorOutcome (errOut out : String) : TaskOutcome :=
  if errOut.length != 0 then .terminated errOut
  else if out.length != 0 then .loggedDebug out
  else .quiet

/-- The forward-loop goroutine body: `panic` if `forwarder.ForwardPorts()`
returned a non-nil error (`some msg`); on a nil return (normal stop-signal
closure included) the goroutine just exits. -/
def forwardLoopOutcome (forwardPortsErr : Option String) : TaskOutcome :=
  match forwardPortsErr with
  | some e => .terminated e
  | none => .quiet

/-- `startForward` (portforward.go:206-233), synchronous part:
`portforward.New`'s result is returned; the two goroutines are launched
only when it succeeds. -/
def startForward (newForwarderRes : Except String Unit) : Except String Unit :=
  newForwarderRes

/- ### Logger -/

namespace LogLevel

def Debug : Nat := 0

def Info : Nat := 1

def Warn : Nat := 2

def Error : Nat := 3

def Off : Nat := 4

end LogLevel

/-- The `logger` struct (portforward.go:268-270). -/
structure logger where
  level : Nat
deriving DecidableEq, Repr

/-- `newLogger` (portforward.go:272-275). -/
def newLogger (level : Nat) : logger := ⟨level⟩

/-- `logger.isOff` (portforward.go:309-311). -/
def logger.isOff (l : logger) : Bool := l.level == LogLevel.Off

/-- `overwriteLog` (portforward.go:249-256): returns the new value of
`runtime.ErrorHandlers` — emptied exactly when the logger is `Off`,
untouched otherwise. -/
def overwriteLog (log : logger) (errorHandlers : List Nat) : List Nat :=
  if !log.isOff then errorHandlers else []

/- ### Signal listener -/

/-- One goroutine attached by `closeOnSigterm` (portforward.go:236-247):
blocked on its signal channel until a subscribed signal fires once
(`fired`), after which it has exited. -/
structure Listener where
  ns : String
  qualifiedName : String
  fired : Bool
deriving DecidableEq, Repr

/-- `closeOnSigterm`: attaches a fresh listener for the key — one per call,
never deduplicated. -/
def closeOnSigterm (ns qualifiedName : String) (ls : List Listener) : List Listener :=
  ls ++ [⟨ns, qualifiedName, false⟩]

inductive GoSignal
  | sigint
  | sigterm
  | other
deriving DecidableEq, Repr

/-- Delivery of one OS signal to one listener: `signal.Notify` subscribes
the channel to SIGINT and SIGTERM only; on the first such signal the
goroutine calls `StopForwarding` for its key and exits. The `Nat` counts
how many `StopForwarding` invocations the delivery caused. -/
def deliverSignal (sig : GoSignal) (l : Listener) (st : RegState) :
    Listener × RegState × Nat :=
  if l.fired then (l, st, 0)
  else
    match sig with
    | .sigint => ({ l with fired := true }, StopForwarding l.ns l.qualifiedName st, 1)
    | .sigterm => ({ l with fired := true }, StopForwarding l.ns l.qualifiedName st, 1)
    | .other => (l, st, 0)

/- ### The Forward orchestrator -/

/-- Results of the external collaborator calls `Forward` makes, in call
order. `configRes` carries `config.Host` on success. -/
structure ForwardEnv where
  configRes : Except String String
  clientsetRes : Except String Unit
  svcRes : Except String Unit
  podRes : Except String Unit
  roundTripperRes : Except String Unit
  newForwarderRes : Except String Unit
deriving Repr

/-- Observable outcome of one `Forward` call: its return value, the
registry, the attached signal listeners, `runtime.ErrorHandlers`, and
whether the background goroutines were launched. -/
structure ForwardResult where
  res : Except String Unit
  reg : RegState
  listeners : List Listener
  errorHandlers : List Nat
  tasksStarted : Bool
deriving Repr

/-- `Forward` (portforward.go:77-122): logging setup, config load, target
resolution, dialer construction, tunnel start; only then registration and
the signal listener. -/
def Forward (env : ForwardEnv) (ns podOrService : String) (logLevel : Nat)
    (stopChan : Nat) (reg0 : RegState) (ls0 : List Listener)
    (handlers0 : List Nat) : ForwardResult :=
  let log := newLogger logLevel
  let handlers1 := overwriteLog log handlers0
  match env.configRes with
  | .error e => ⟨.error e, reg0, ls0, handlers1, false⟩
  | .ok host =>
    match prepareForward env.clientsetRes env.svcRes env.podRes podOrService with
    | .error e => ⟨.error e, reg0, ls0, handlers1, false⟩
    | .ok resType =>
      match newDialer env.roundTripperRes host ns resType podOrService with
      | .error e => ⟨.error e, reg0, ls0, handlers1, false⟩
      | .ok _dialer =>
        match startForward env.newForwarderRes with
        | .error e => ⟨.error e, reg0, ls0, handlers1, false⟩
        | .ok _ =>
          ⟨.ok (), registerForwarding ns podOrService stopChan reg0,
            closeOnSigterm ns podOrService ls0, handlers1, true⟩

/-- All-or-nothing at `Forward`'s public boundary: on an error return
nothing was registered, no listener attached, no background work started;
on success the tunnel is registered under the key and the background tasks
run. -/
def allOrNothing (r : ForwardResult) (ns podOrService : String) (stopChan : Nat)
    (reg0 : RegState) (ls0 : List Listener) : Prop :=
  match r.res with
  | .error _ => r.reg = reg0 ∧ r.listeners = ls0 ∧ r.tasksStarted = false
  | .ok _ =>
    getAssoc (mkKey ns podOrService) r.reg.active = some stopChan
      ∧ r.listeners = closeOnSigterm ns podOrService ls0 ∧ r.tasksStarted = true

/- ### Claim C3 -/

/-- C3 (code evaluated at the spec's own inputs): for host
`"https://1.2.3.4:6443"` the URL matches the spec exactly, and the path
always follows the `/api/v1/namespaces/{ns}/{kind}/{name}/portforward`
template; but for host `"https://proxy.example/api/clusters/c1"` the code
computes host segment `"roxy.example"`, not `"proxy.example"`, because
`strings.TrimLeft(host, "https://")` treats `"https://"` as a character
set and also strips the leading `'p'` (the `/api/clusters/c1` prefix is
still prepended before the constructed path). -/
theorem C3_newDialer_path_construction :
    (∀ ns resType name : String,
      newDialer (.ok ()) "https://1.2.3.4:6443" ns resType name
        = .ok ⟨"https", "1.2.3.4:6443",
            "/api/v1/namespaces/" ++ ns ++ "/" ++ resType ++ "/" ++ name
              ++ "/portforward"⟩) ∧
    newDialer (.ok ()) "https://1.2.3.4:6443" "test" "pods" "web"
      = .ok ⟨"https", "1.2.3.4:6443", "/api/v1/namespaces/test/pods/web/portforward"⟩ ∧
    newDialer (.ok ()) "https://proxy.example/api/clusters/c1" "test" "pods" "web"
      = .ok ⟨"https", "roxy.example",
          "/api/clusters/c1/api/v1/namespaces/test/pods/web/portforward"⟩ ∧
    "roxy.example" ≠ "proxy.example" :=
  ⟨fun _ _ _ => rfl, rfl, rfl, by decide⟩

/- ### Claim C4 -/

/-- C4: resolution tries the service kind first — when the service lookup
succeeds, the result is `"services"` whatever the pod lookup would have
returned; when both lookups fail with not-found errors, resolution fails
with the synthesized message naming the target, which contains (here:
equals) `"no service or pod with name <target> found"`. -/
theorem C4_resolution_precedence (name e1 e2 : String) (podRes : Except String Unit)
    (h1 : goStringsContains e1 "not found" = true)
    (h2 : goStringsContains e2 "not found" = true) :
    prepareForward (.ok ()) (.ok ()) podRes name = .ok "services" ∧
    prepareForward (.ok ()) (.error e1) (.error e2) name
      = .error ("no service or pod with name " ++ name ++ " found") ∧
    goStringsContains ("no service or pod with name " ++ name ++ " found")
      ("no service or pod with name " ++ name ++ " found") = true := by
  refine ⟨rfl, ?_, ?_⟩
  · simp [prepareForward, h1, h2]
  · exact subListOf_self _

theorem C4_resolution_precedence_witness :
    prepareForward (.ok ()) (.ok ()) (.error "boom") "ghost" = .ok "services" ∧
    prepareForward (.ok ()) (.error "services \x22ghost\x22 not found")
      (.error "pods \x22ghost\x22 not found") "ghost"
      = .error "no service or pod with name ghost found" ∧
    goStringsContains "no service or pod with name ghost found"
      "no service or pod with name ghost found" = true :=
  C4_resolution_precedence "ghost" "services \x22ghost\x22 not found"
    "pods \x22ghost\x22 not found" (.error "boom") (by decide) (by decide)

/- ### Claim C5 -/

/-- C5: a resolution failure whose message does not contain `"not found"`
is returned by `Forward` as the collaborator produced it, unchanged —
whether it came from the service lookup (the pod lookup is then never
consulted) or from the pod lookup; lookup errors are classified as
not-found purely by that substring of their message, and only those are
swallowed, letting resolution fall through and synthesize its own
not-found error. -/
theorem C5_resolution_error_propagation (ns name host e nf1 nf2 : String)
    (logLevel stopChan : Nat) (reg0 : RegState) (ls0 : List Listener)
    (handlers0 : List Nat) (podRes : Except String Unit)
    (he : goStringsContains e "not found" = false)
    (h1 : goStringsContains nf1 "not found" = true)
    (h2 : goStringsContains nf2 "not found" = true) :
    (Forward ⟨.ok host, .ok (), .error e, podRes, .ok (), .ok ()⟩ ns name logLevel
      stopChan reg0 ls0 handlers0).res = .error e ∧
    (Forward ⟨.ok host, .ok (), .error nf1, .error e, .ok (), .ok ()⟩ ns name logLevel
      stopChan reg0 ls0 handlers0).res = .error e ∧
    (Forward ⟨.ok host, .ok (), .error nf1, .error nf2, .ok (), .ok ()⟩ ns name logLevel
      stopChan reg0 ls0 handlers0).res
      = .error ("no service or pod with name " ++ name ++ " found") := by
  refine ⟨?_, ?_, ?_⟩ <;> simp [Forward, prepareForward, he, h1, h2]

theorem C5_resolution_error_propagation_witness :
    (Forward ⟨.ok "https://1.2.3.4:6443", .ok (), .error "forbidden",
      .error "x", .ok (), .ok ()⟩ "test" "web" 0 1 ⟨[], []⟩ [] []).res
      = .error "forbidden" ∧
    (Forward ⟨.ok "https://1.2.3.4:6443", .ok (), .error "services \x22web\x22 not found",
      .error "forbidden", .ok (), .ok ()⟩ "test" "web" 0 1 ⟨[], []⟩ [] []).res
      = .error "forbidden" ∧
    (Forward ⟨.ok "https://1.2.3.4:6443", .ok (), .error "services \x22web\x22 not found",
      .error "pods \x22web\x22 not found", .ok (), .ok ()⟩ "test" "web" 0 1
      ⟨[], []⟩ [] []).res
      = .error ("no service or pod with name " ++ "web" ++ " found") :=
  C5_resolution_error_propagation "test" "web" "https://1.2.3.4:6443"
    "forbidden" "services \x22web\x22 not found" "pods \x22web\x22 not found"
    0 1 ⟨[], []⟩ [] [] (.error "x") (by decide) (by decide) (by decide)

/- ### Claim C6 -/

/-- C6: `Forward` is all-or-nothing at its boundary — on an error return
the registry, the listeners and the background-task flag are untouched; on
success the stop channel is registered under the key, a listener is
attached and the tasks run; and each step (credential load, resolution,
dialer construction, tunnel construction) fails fast, returning that
step's error. -/
theorem C6_forward_all_or_nothing (env : ForwardEnv) (ns podOrService : String)
    (logLevel stopChan : Nat) (reg0 : RegState) (ls0 : List Listener)
    (handlers0 : List Nat) :
    allOrNothing (Forward env ns podOrService logLevel stopChan reg0 ls0 handlers0)
      ns podOrService stopChan reg0 ls0 ∧
    (∀ e, env.configRes = .error e →
      (Forward env ns podOrService logLevel stopChan reg0 ls0 handlers0).res
        = .error e) ∧
    (∀ host e, env.configRes = .ok host →
      prepareForward env.clientsetRes env.svcRes env.podRes podOrService = .error e →
      (Forward env ns podOrService logLevel stopChan reg0 ls0 handlers0).res
        = .error e) ∧
    (∀ host resType e, env.configRes = .ok host →
      prepareForward env.clientsetRes env.svcRes env.podRes podOrService = .ok resType →
      newDialer env.roundTripperRes host ns resType podOrService = .error e →
      (Forward env ns podOrService logLevel stopChan reg0 ls0 handlers0).res
        = .error e) ∧
    (∀ host resType d e, env.configRes = .ok host →
      prepareForward env.clientsetRes env.svcRes env.podRes podOrService = .ok resType →
      newDialer env.roundTripperRes host ns resType podOrService = .ok d →
      startForward env.newForwarderRes = .error e →
      (Forward env ns podOrService logLevel stopChan reg0 ls0 handlers0).res
        = .error e) := by
  refine ⟨?_, ?_, ?_, ?_, ?_⟩
  · cases hc : env.configRes with
    | error e =>
      have hF : Forward env ns podOrService logLevel stopChan reg0 ls0 handlers0
          = ⟨.error e, reg0, ls0, overwriteLog (newLogger logLevel) handlers0, false⟩ := by
        simp only [Forward, hc]
      rw [hF]
      exact ⟨rfl, rfl, rfl⟩
    | ok host =>
      cases hp : prepareForward env.clientsetRes env.svcRes env.podRes podOrService with
      | error e =>
        have hF : Forward env ns podOrService logLevel stopChan reg0 ls0 handlers0
            = ⟨.error e, reg0, ls0, overwriteLog (newLogger logLevel) handlers0, false⟩ := by
          simp only [Forward, hc, hp]
        rw [hF]
        exact ⟨rfl, rfl, rfl⟩
      | ok resType =>
        cases hd : newDialer env.roundTripperRes host ns resType podOrService with
        | error e =>
          have hF : Forward env ns podOrService logLevel stopChan reg0 ls0 handlers0
              = ⟨.error e, reg0, ls0, overwriteLog (newLogger logLevel) handlers0, false⟩ := by
            simp only [Forward, hc, hp, hd]
          rw [hF]
          exact ⟨rfl, rfl, rfl⟩
        | ok d =>
          cases hsf : startForward env.newForwarderRes with
          | error e =>
            have hF : Forward env ns podOrService logLevel stopChan reg0 ls0 handlers0
                = ⟨.error e, reg0, ls0, overwriteLog (newLogger logLevel) handlers0,
                    false⟩ := by
              simp only [Forward, hc, hp, hd, hsf]
            rw [hF]
            exact ⟨rfl, rfl, rfl⟩
          | ok u =>
            have hF : Forward env ns podOrService logLevel stopChan reg0 ls0 handlers0
                = ⟨.ok (), registerForwarding ns podOrService stopChan reg0,
                    closeOnSigterm ns podOrService ls0,
                    overwriteLog (newLogger logLevel) handlers0, true⟩ := by
              simp only [Forward, hc, hp, hd, hsf]
            rw [hF]
            refine ⟨?_, rfl, rfl⟩
            rw [registerForwarding_active]
            exact getAssoc_setAssoc_same ..
  · intro e he
    simp only [Forward, he]
  · intro host e hh hp
    simp only [Forward, hh, hp]
  · intro host resType e hh hp hd
    simp only [Forward, hh, hp, hd]
  · intro host resType d e hh hp hd hsf
    simp only [Forward, hh, hp, hd, hsf]

theorem C6_forward_all_or_nothing_witness :
    allOrNothing (Forward ⟨.error "boom", .ok (), .ok (), .ok (), .ok (), .ok ()⟩
      "test" "web" 0 1 ⟨[], []⟩ [] []) "test" "web" 1 ⟨[], []⟩ [] ∧
    (Forward ⟨.error "boom", .ok (), .ok (), .ok (), .ok (), .ok ()⟩
      "test" "web" 0 1 ⟨[], []⟩ [] []).res = .error "boom" ∧
    allOrNothing (Forward ⟨.ok "https://1.2.3.4:6443", .ok (), .ok (), .ok (),
      .ok (), .ok ()⟩ "test" "web" 0 1 ⟨[], []⟩ [] []) "test" "web" 1 ⟨[], []⟩ [] :=
  ⟨(C6_forward_all_or_nothing ⟨.error "boom", .ok (), .ok (), .ok (), .ok (), .ok ()⟩
      "test" "web" 0 1 ⟨[], []⟩ [] []).1,
   (C6_forward_all_or_nothing ⟨.error "boom", .ok (), .ok (), .ok (), .ok (), .ok ()⟩
      "test" "web" 0 1 ⟨[], []⟩ [] []).2.1 "boom" rfl,
   (C6_forward_all_or_nothing ⟨.ok "https://1.2.3.4:6443", .ok (), .ok (), .ok (),
      .ok (), .ok ()⟩ "test" "web" 0 1 ⟨[], []⟩ [] []).1⟩

/- ### Claim C7 -/

/-- C7: after a successful launch, a non-empty error output makes the
monitor goroutine terminate the process abnormally with that output
(whatever the informational output is); only-informational output is
logged at debug level; and a non-nil `ForwardPorts` error makes the
forward-loop goroutine terminate the process abnormally — never a silent
drop, never a plain return. -/
theorem C7_post_launch_faults_terminate (errOut out msg : String)
    (heo : (errOut.length != 0) = true) (ho : (out.length != 0) = true) :
    monitorOutcome errOut out = .terminated errOut ∧
    monitorOutcome errOut "" = .terminated errOut ∧
    monitorOutcome "" out = .loggedDebug out ∧
    monitorOutcome "" "" = .quiet ∧
    forwardLoopOutcome (some msg) = .terminated msg ∧
    forwardLoopOutcome (some msg) ≠ .quiet ∧
    forwardLoopOutcome none = .quiet := by
  refine ⟨?_, ?_, ?_, rfl, rfl, fun h => TaskOutcome.noConfusion h, rfl⟩ <;>
    simp [monitorOutcome, heo, ho]

theorem C7_post_launch_faults_terminate_witness :
    monitorOutcome "remote error" "info" = .terminated "remote error" ∧
    monitorOutcome "remote error" "" = .terminated "remote error" ∧
    monitorOutcome "" "info" = .loggedDebug "info" ∧
    monitorOutcome "" "" = .quiet ∧
    forwardLoopOutcome (some "conn reset") = .terminated "conn reset" ∧
    forwardLoopOutcome (some "conn reset") ≠ .quiet ∧
    forwardLoopOutcome none = .quiet :=
  C7_post_launch_faults_terminate "remote error" "info" "conn reset"
    (by decide) (by decide)

/- ### Claim C9 -/

/-- C9: a successful `Forward` attaches exactly one new listener for its
key (appended, never deduplicated); delivering SIGINT or SIGTERM to that
listener invokes `StopForwarding` for the key exactly once and the
listener exits (`fired`); a further signal to the fired listener performs
no further stop. -/
theorem C9_signal_driven_stop (env : ForwardEnv) (ns podOrService : String)
    (logLevel stopChan : Nat) (reg0 : RegState) (ls0 : List Listener)
    (handlers0 : List Nat) (sig sig2 : GoSignal) (st st2 : RegState)
    (hok : (Forward env ns podOrService logLevel stopChan reg0 ls0 handlers0).res
      = .ok ())
    (hsig : sig = GoSignal.sigint ∨ sig = GoSignal.sigterm) :
    (Forward env ns podOrService logLevel stopChan reg0 ls0 handlers0).listeners
      = ls0 ++ [⟨ns, podOrService, false⟩] ∧
    deliverSignal sig ⟨ns, podOrService, false⟩ st
      = (⟨ns, podOrService, true⟩, StopForwarding ns podOrService st, 1) ∧
    deliverSignal sig2 ⟨ns, podOrService, true⟩ st2
      = (⟨ns, podOrService, true⟩, st2, 0) := by
  refine ⟨?_, ?_, ?_⟩
  · unfold Forward at hok ⊢
    cases hc : env.configRes with
    | error e => simp [hc] at hok
    | ok host =>
      simp only [hc] at hok ⊢
      cases hp : prepareForward env.clientsetRes env.svcRes env.podRes podOrService with
      | error e => simp [hp] at hok
      | ok resType =>
        simp only [hp] at hok ⊢
        cases hd : newDialer env.roundTripperRes host ns resType podOrService with
        | error e => simp [hd] at hok
        | ok d =>
          simp only [hd] at hok ⊢
          cases hsf : startForward env.newForwarderRes with
          | error e => simp [hsf] at hok
          | ok u => simp only [hsf]; rfl
  · rcases hsig with h | h <;> subst h <;> rfl
  · cases sig2 <;> rfl

theorem C9_signal_driven_stop_witness :
    (Forward ⟨.ok "https://1.2.3.4:6443", .ok (), .ok (), .ok (), .ok (), .ok ()⟩
      "test" "web" 0 1 ⟨[], []⟩ [] []).listeners
      = [] ++ [⟨"test", "web", false⟩] ∧
    deliverSignal GoSignal.sigint ⟨"test", "web", false⟩ ⟨[("test/web", 1)], []⟩
      = (⟨"test", "web", true⟩, StopForwarding "test" "web" ⟨[("test/web", 1)], []⟩, 1) ∧
    deliverSignal GoSignal.sigint ⟨"test", "web", true⟩ ⟨[], [1]⟩
      = (⟨"test", "web", true⟩, ⟨[], [1]⟩, 0) :=
  C9_signal_driven_stop ⟨.ok "https://1.2.3.4:6443", .ok (), .ok (), .ok (), .ok (), .ok ()⟩
    "test" "web" 0 1 ⟨[], []⟩ [] [] GoSignal.sigint GoSignal.sigint
    ⟨[("test/web", 1)], []⟩ ⟨[], [1]⟩ rfl (Or.inl rfl)

/- ### Claim C10 -/

/-- C10: the `runtime.ErrorHandlers` hook is emptied by `Forward`'s
`overwriteLog` call exactly when `logLevel = Off` (level 4 of the enum
Debug, Info, Warn, Error, Off); for every other level it is left
unchanged. -/
theorem C10_off_suppresses_handlers (env : ForwardEnv) (ns podOrService : String)
    (logLevel stopChan : Nat) (reg0 : RegState) (ls0 : List Listener)
    (handlers0 : List Nat) (hlv : logLevel ≠ LogLevel.Off) :
    overwriteLog (newLogger LogLevel.Off) handlers0 = [] ∧
    overwriteLog (newLogger logLevel) handlers0 = handlers0 ∧
    (Forward env ns podOrService LogLevel.Off stopChan reg0 ls0 handlers0).errorHandlers
      = [] ∧
    (Forward env ns podOrService logLevel stopChan reg0 ls0 handlers0).errorHandlers
      = handlers0 := by
  have h1 : overwriteLog (newLogger LogLevel.Off) handlers0 = [] := rfl
  have hbeq : (logLevel == LogLevel.Off) = false := beq_eq_false_iff_ne.mpr hlv
  have h2 : overwriteLog (newLogger logLevel) handlers0 = handlers0 := by
    simp [overwriteLog, newLogger, logger.isOff, hbeq]
  refine ⟨h1, h2, ?_, ?_⟩
  · unfold Forward
    repeat' split
    all_goals exact h1
  · unfold Forward
    repeat' split
    all_goals exact h2

theorem C10_off_suppresses_handlers_witness :
    overwriteLog (newLogger LogLevel.Off) [1, 2] = [] ∧
    overwriteLog (newLogger LogLevel.Debug) [1, 2] = [1, 2] ∧
    (Forward ⟨.ok "h", .ok (), .ok (), .ok (), .ok (), .ok ()⟩ "test" "web"
      LogLevel.Off 1 ⟨[], []⟩ [] [1, 2]).errorHandlers = [] ∧
    (Forward ⟨.ok "h", .ok (), .ok (), .ok (), .ok (), .ok ()⟩ "test" "web"
      LogLevel.Debug 1 ⟨[], []⟩ [] [1, 2]).errorHandlers = [1, 2] :=
  C10_off_suppresses_handlers ⟨.ok "h", .ok (), .ok (), .ok (), .ok (), .ok ()⟩
    "test" "web" LogLevel.Debug 1 ⟨[], []⟩ [] [1, 2] (by decide)

end Portforward
